import Mathlib

/-!
Verification of the space-code-copilot backend against its specification.

The Python sources embedded here are:
  * backend/app/services/pdf_ingest.py   (page/section metadata extraction, chunking)
  * backend/app/services/compliance_checker.py and models/domain.py
  * backend/app/services/vector_store.py (retriever mode selection)
  * backend/app/api/chat.py              (chat endpoint, citation repair/derivation)
  * backend/app/core/llm.py              (LLM client acquisition)

Python strings are modelled as Lean String / List Char (Python indexes by code
point, as does String.length / String.data here for the texts involved).
Python ints are Int, floats that only ever hold exact decimal values are Rat.
Python regular expressions are hand-translated into deterministic scanners that
reproduce the leftmost-match, greedy-with-backtracking semantics of the
specific patterns used by the source (argued case by case in comments).
A metadata value read with dict.get is modelled as an Option field.
-/

/-- Python regex class \s restricted to ASCII (the texts involved are ASCII):
space, tab, newline, carriage return, vertical tab, form feed. -/
def isPySpace (c : Char) : Bool :=
  c == ' ' || c == '\t' || c == '\n' || c == '\r' || c.toNat == 11 || c.toNat == 12

/-- Python regex class \w (ASCII): letters, digits, underscore.  Used for the
word-boundary check after a digit run. -/
def isWordChar (c : Char) : Bool :=
  c.isAlphanum || c == '_'

/-- Case-insensitive single-character comparison (re.IGNORECASE on ASCII). -/
def ciIs (c p : Char) : Bool :=
  c.toLower == p.toLower

/-- Python str.strip(): remove leading and trailing whitespace. -/
def pyStrip (s : String) : String :=
  String.mk (((s.data.dropWhile isPySpace).reverse.dropWhile isPySpace).reverse)

/-- Python str.isdigit() (ASCII): nonempty and all characters are digits. -/
def pyIsDigit (s : String) : Bool :=
  !s.data.isEmpty && s.data.all Char.isDigit

/-- Python int() on a digit string. -/
def digitsToNat (ds : List Char) : Nat :=
  ds.foldl (fun n c => n * 10 + (c.toNat - 48)) 0

/-- Case-insensitive literal matching: consume the pattern characters,
returning the rest of the input on success. -/
def matchCI : List Char → List Char → Option (List Char)
  | [], cs => some cs
  | _ :: _, [] => none
  | p :: ps, c :: cs => if ciIs c p then matchCI ps cs else none

/-- Case-sensitive literal matching: consume the pattern characters,
returning the rest of the input on success. -/
def matchLit : List Char → List Char → Option (List Char)
  | [], cs => some cs
  | _ :: _, [] => none
  | p :: ps, c :: cs => if c == p then matchLit ps cs else none

/-- re.search driver: try the position matcher at every start position from
left to right (including the empty suffix) and return the first success. -/
def scanFirst {α : Type} (f : List Char → Option α) : List Char → Option α
  | [] => f []
  | c :: t =>
    match f (c :: t) with
    | some r => some r
    | none => scanFirst f t

/-- First result of an option-valued function over a list (the loop
`for x in l: if ok: return`). -/
def firstSome {α β : Type} (f : α → Option β) : List α → Option β
  | [] => none
  | a :: t =>
    match f a with
    | some b => some b
    | none => firstSome f t

/-- Python str.split on a single newline separator, accumulator-based so the
kernel can evaluate it: "a\nb" gives ["a", "b"], "" gives [""], a trailing
newline yields a trailing empty string. -/
def pySplitNLAux (cur : List Char) : List Char → List String
  | [] => [String.mk cur.reverse]
  | c :: t =>
    if c = '\n' then String.mk cur.reverse :: pySplitNLAux [] t
    else pySplitNLAux (c :: cur) t

/-- Python text.split of a string on newlines. -/
def pySplitNL (s : String) : List String :=
  pySplitNLAux [] s.data

/-!
pdf_ingest.extract_page_number_from_text, pattern 1:
`re.findall(r'(?:Page|p\.?)\s*(\d+)\b', footer_text, re.IGNORECASE)`,
returning the first match whose value lies in [1, 2000].
-/

/-- Tail of pattern 1 after the `Page`/`p.` head: `\s*(\d+)\b`.  The whitespace
skip is maximal (whitespace and digits are disjoint, so greedy backtracking
never helps), the digit run is maximal, and the word boundary after a maximal
digit run fails exactly when the next character is a letter or underscore
(giving digits back just moves the boundary between two digits, which also
fails). -/
def p1TailMatch (cs : List Char) : Option (List Char) :=
  let c1 := cs.dropWhile isPySpace
  let ds := c1.takeWhile Char.isDigit
  if ds.isEmpty then none
  else
    match c1.drop ds.length with
    | [] => some ds
    | c :: _ => if isWordChar c then none else some ds

/-- The `p\.?` alternative of pattern 1 after the initial `p` has been
consumed: an optional dot (greedy, so the with-dot attempt is tried first),
then the tail. -/
def p1DotBranch (rest : List Char) : Option (List Char) :=
  match rest with
  | '.' :: r2 =>
    match p1TailMatch r2 with
    | some ds => some ds
    | none => p1TailMatch rest
  | _ => p1TailMatch rest

/-- Pattern 1 tried at one start position.  The ordered alternation
`Page|p\.?` tries the four-letter literal first; if its tail fails, the
single-letter alternative is retried at the same position. -/
def p1MatchAt (cs : List Char) : Option (List Char) :=
  match cs with
  | [] => none
  | c :: rest =>
    if ciIs c 'p' then
      match rest with
      | a :: g :: e :: rest2 =>
        if ciIs a 'a' && ciIs g 'g' && ciIs e 'e' then
          match p1TailMatch rest2 with
          | some ds => some ds
          | none => p1DotBranch rest
        else p1DotBranch rest
      | _ => p1DotBranch rest
    else none

/-- The findall loop of pattern 1: scan start positions left to right and
return the first matched value inside [1, 2000].  A pattern-1 match never
contains a further `p`/`P` after its first character (its span is the head
letters `age`/`.`, whitespace, digits), so scanning every position is
equivalent to re.findall's continue-after-the-match-end scanning. -/
def p1Scan : List Char → Option Int
  | [] => none
  | c :: t =>
    match p1MatchAt (c :: t) with
    | some ds =>
      let n := digitsToNat ds
      if 1 ≤ n && n ≤ 2000 then some (Int.ofNat n) else p1Scan t
    | none => p1Scan t

/-- Pattern 1 of extract_page_number_from_text: look for an explicit
`Page N` / `p. N` label in the final 200 characters
(`text[-200:] if len(text) > 200 else text`). -/
def p1Footer (text : String) : Option Int :=
  let cs := text.data
  p1Scan (cs.drop (cs.length - 200))

/-- Pattern 2, one line of the loop body: a stripped line that is only digits,
at most 4 characters, inside [1, 2000] and within 100 of the 1-based PDF page
number.  A line failing the inner validation makes the loop continue. -/
def p2Line (pdfPageNum : Int) (l : String) : Option Int :=
  let s := pyStrip l
  if pyIsDigit s && s.length ≤ 4 then
    let n := digitsToNat s.data
    if 1 ≤ n && n ≤ 2000 && ((Int.ofNat n) - pdfPageNum).natAbs ≤ 100 then
      some (Int.ofNat n)
    else none
  else none

/-- Pattern 2 of extract_page_number_from_text: the last three lines in
reverse order (`for line in reversed(lines[-3:])`). -/
def p2LastLines (lines : List String) (pdfPageNum : Int) : Option Int :=
  firstSome (p2Line pdfPageNum) ((lines.drop (lines.length - 3)).reverse)

/-- Pattern 3 of extract_page_number_from_text:
`re.search(r'(\d+)\s*$', last_line)` on the stripped last line.  After
stripping there is no trailing whitespace, so the leftmost match of the
pattern is exactly the maximal digit suffix of the line.  All validations sit
in a single conjunction. -/
def p3LastLine (lines : List String) (pdfPageNum : Int) : Option Int :=
  let lastLine := pyStrip ((lines.getLast?).getD "")
  let ds := (lastLine.data.reverse.takeWhile Char.isDigit).reverse
  if ds.isEmpty then none
  else
    let n := digitsToNat ds
    if 1 ≤ n && n ≤ 2000 && lastLine.length < 30 && ds.length ≤ 4 &&
        ((Int.ofNat n) - pdfPageNum).natAbs ≤ 100 then
      some (Int.ofNat n)
    else none

/-- pdf_ingest.extract_page_number_from_text: recover the printed page number
from page text, validated against the 0-based PDF page index. -/
def extract_page_number_from_text (text : String) (pdf_page_index : Int) :
    Option Int :=
  if text.data.isEmpty then none
  else
    let lines := pySplitNL text
    let pdfPageNum := pdf_page_index + 1
    match p1Footer text with
    | some n => some n
    | none =>
      match p2LastLines lines pdfPageNum with
      | some n => some n
      | none => p3LastLine lines pdfPageNum

/-!
pdf_ingest.extract_section_number: four regex families tried in order.
-/

/-- Capture `\d+(?:\.\d+){a,b}` / `\d+(?:\.\d+)?`: a maximal digit run
followed by up to maxReps groups of a dot and a maximal digit run (greedy;
nothing follows the capture in any of the patterns, so backtracking to fewer
repetitions never occurs).  Returns the list of matched `.digits` groups. -/
def takeDotReps : Nat → List Char → List (List Char)
  | 0, _ => []
  | k + 1, cs =>
    match cs with
    | '.' :: cs2 =>
      let ds := cs2.takeWhile Char.isDigit
      if ds.isEmpty then []
      else ('.' :: ds) :: takeDotReps k (cs2.drop ds.length)
    | _ => []

/-- The numeric capture with between minReps and maxReps dot groups. -/
def numCapture (minReps maxReps : Nat) (cs : List Char) : Option String :=
  let ds := cs.takeWhile Char.isDigit
  if ds.isEmpty then none
  else
    let reps := takeDotReps maxReps (cs.drop ds.length)
    if reps.length < minReps then none
    else some (String.mk (ds ++ reps.flatten))

/-- `\s+` then the numeric capture (whitespace and digits are disjoint, so the
greedy whitespace skip is deterministic). -/
def wsPlusNum (minReps maxReps : Nat) (cs : List Char) : Option String :=
  let w := cs.takeWhile isPySpace
  if w.isEmpty then none else numCapture minReps maxReps (cs.drop w.length)

/-- Family 1 at one position: `(?:Section|Sec\.?)\s+(\d+(?:\.\d+){1,3})`,
case-insensitive.  The alternation tries `Section` first and falls back to
`Sec` with an optional dot. -/
def sec1At (cs : List Char) : Option String :=
  let secBranch : Option String :=
    match matchCI "sec".data cs with
    | some r =>
      (match r with
       | '.' :: r2 =>
         match wsPlusNum 1 3 r2 with
         | some s => some s
         | none => wsPlusNum 1 3 r
       | _ => wsPlusNum 1 3 r)
    | none => none
  match matchCI "section".data cs with
  | some r =>
    match wsPlusNum 1 3 r with
    | some s => some s
    | none => secBranch
  | none => secBranch

/-- Family 2 at one position: `Chapter\s+(\d+(?:\.\d+)?)`, case-insensitive. -/
def sec2At (cs : List Char) : Option String :=
  match matchCI "chapter".data cs with
  | some r => wsPlusNum 0 1 r
  | none => none

/-- Family 3 at one position: `(?:Art\.?|Article)\s+(\d+(?:\.\d+){1,2})`,
case-insensitive.  The alternation tries `Art` with an optional dot first and
falls back to the full word `Article`. -/
def sec3At (cs : List Char) : Option String :=
  let artBranch : Option String :=
    match matchCI "art".data cs with
    | some r =>
      (match r with
       | '.' :: r2 =>
         match wsPlusNum 1 2 r2 with
         | some s => some s
         | none => wsPlusNum 1 2 r
       | _ => wsPlusNum 1 2 r)
    | none => none
  match artBranch with
  | some s => some s
  | none =>
    match matchCI "article".data cs with
    | some r => wsPlusNum 1 2 r
    | none => none

/-- Family 4 at one position: `§\s*(\d+(?:\.\d+){1,3})` (case-sensitive;
the whitespace after the symbol is optional here). -/
def sec4At (cs : List Char) : Option String :=
  match cs with
  | '§' :: r =>
    let w := r.takeWhile isPySpace
    numCapture 1 3 (r.drop w.length)
  | _ => none

/-- re.search of family 1 over the whole text. -/
def secFamilySection (text : String) : Option String :=
  scanFirst sec1At text.data

/-- re.search of family 2 over the whole text. -/
def secFamilyChapter (text : String) : Option String :=
  scanFirst sec2At text.data

/-- re.search of family 3 over the whole text. -/
def secFamilyArticle (text : String) : Option String :=
  scanFirst sec3At text.data

/-- re.search of family 4 over the whole text. -/
def secFamilySymbol (text : String) : Option String :=
  scanFirst sec4At text.data

/-- pdf_ingest.extract_section_number: the four families in priority order,
first match wins, the captured label is returned unmodified. -/
def extract_section_number (text : String) : Option String :=
  match secFamilySection text with
  | some s => some s
  | none =>
    match secFamilyChapter text with
    | some s => some s
    | none =>
      match secFamilyArticle text with
      | some s => some s
      | none => secFamilySymbol text

/-!
pdf_ingest.chunk_documents.
-/

/-- A page (or a raw text chunk produced by the splitter) together with the
loader metadata key "page".  `page = some k` models an int metadata value k
(a missing key reads as 0 through `metadata.get("page", 0)`); `page = none`
models a non-int value, which fails the isinstance check. -/
structure PageDoc where
  page_content : String
  page : Option Int
deriving DecidableEq, Repr

/-- A chunk after chunk_documents has enriched its metadata: `page_pdf` is the
1-based PDF page, `page_document` the recovered printed page, `page` the
backward-compatible preferred page (`page_document or page_pdf`), and
`section_label` the metadata key "section" extracted from the chunk text. -/
structure Chunk where
  page_content : String
  page_pdf : Option Int
  page_document : Option Int
  page : Option Int
  section_label : Option String
deriving DecidableEq, Repr

/-- Python `a or b` on optional ints: a falsy left operand (None or 0) yields
the right operand. -/
def pyOrInt (a b : Option Int) : Option Int :=
  match a with
  | some n => if n = 0 then b else some n
  | none => b

/-- One iteration of the page-number-map loop: extract the printed page number
from the full page text and record it under the PDF page index when it is
truthy and inside [1, 5000].  New entries are consed to the front so that the
first lookup hit reproduces the last-write-wins behaviour of a Python dict. -/
def pageMapInsert (d : PageDoc) (m : List (Int × Int)) : List (Int × Int) :=
  match d.page with
  | some idx =>
    match extract_page_number_from_text d.page_content idx with
    | some p =>
      if p ≠ 0 then (if 1 ≤ p ∧ p ≤ 5000 then (idx, p) :: m else m) else m
    | none => m
  | none => m

/-- The loop over all pages building the PDF-page-index to printed-page map. -/
def buildPageNumberMapGo : List PageDoc → List (Int × Int) → List (Int × Int)
  | [], m => m
  | d :: ds, m => buildPageNumberMapGo ds (pageMapInsert d m)

/-- chunk_documents, first phase: the `page_number_map` built from full pages
before any splitting. -/
def buildPageNumberMap (documents : List PageDoc) : List (Int × Int) :=
  buildPageNumberMapGo documents []

/-- chunk_documents, per-chunk metadata enrichment (the `for chunk in chunks`
loop): set page_pdf from the loader metadata, page_document from the page
map, page to `page_document or page_pdf`, and section from the chunk's own
text. -/
def enrichChunk (m : List (Int × Int)) (c : PageDoc) : Chunk :=
  let page_pdf : Option Int :=
    match c.page with
    | some idx => some (idx + 1)
    | none => none
  let page_document : Option Int :=
    match c.page with
    | some idx => m.lookup idx
    | none => none
  { page_content := c.page_content
    page_pdf := page_pdf
    page_document := page_document
    page := pyOrInt page_document page_pdf
    section_label := extract_section_number c.page_content }

/-- pdf_ingest.chunk_documents.  The text splitter
(`RecursiveCharacterTextSplitter.split_documents`, an external langchain
capability, not code of this repository) is abstracted as the `split`
parameter; it cuts page texts into pieces, each piece carrying its source
page's metadata.  On a page shorter than the window the real splitter returns
the page itself, so instantiating `split` with the identity reproduces the
library behaviour for such inputs. -/
def chunk_documents (split : List PageDoc → List PageDoc)
    (documents : List PageDoc) : List Chunk :=
  let m := buildPageNumberMap documents
  (split documents).map (enrichChunk m)

/-!
api/chat.py: retrieved-document metadata, citation repair, citation
derivation, and the endpoint control flow.
-/

/-- A retrieved document as the chat endpoint reads it: page text plus the
metadata keys "source", "page_pdf", "page_document" and "section" (each
modelled as Option, a missing key reading as none; `metadata.get("source",
"Unknown")` supplies the default at the use sites). -/
structure RDoc where
  page_content : String
  source : Option String
  page_pdf : Option Int
  page_document : Option Int
  section_label : Option String
deriving DecidableEq, Repr

/-- Python substring test at every suffix. -/
def subAux (pat : List Char) : List Char → Bool
  | [] => pat.isEmpty
  | c :: t => pat.isPrefixOf (c :: t) || subAux pat t

/-- Python substring test `pat in s`. -/
def strContainsSub (s pat : String) : Bool :=
  subAux pat.data s.data

/-- _fix_citations_in_answer, map-building loop: `(source, str(page))` maps to
"PDF page" for a truthy page_pdf and to "document page" for a truthy
page_document; the document entry is written after the PDF entry of the same
chunk, and later chunks are written after earlier ones.  Entries are consed
to the front so the first lookup hit is the last write, as with a Python
dict. -/
def buildPageTypeMap (docs : List RDoc) : List ((String × String) × String) :=
  docs.foldl
    (fun m d =>
      let source := d.source.getD "Unknown"
      let m1 :=
        match d.page_pdf with
        | some p => if p ≠ 0 then ((source, toString p), "PDF page") :: m else m
        | none => m
      match d.page_document with
      | some p => if p ≠ 0 then ((source, toString p), "document page") :: m1 else m1
      | none => m1)
    []

/-- _fix_citations_in_answer, the replace_citation callback: a citation whose
full matched text already carries a page-type parenthetical is returned
unchanged; otherwise the citation is rebuilt with the page type looked up
under the stripped source and the page digits, defaulting to "PDF page", and
the stripped section is re-attached when truthy. -/
def replace_citation (m : List ((String × String) × String))
    (g0 src pg : String) (sec : Option String) : String :=
  if strContainsSub g0 "(PDF page)" || strContainsSub g0 "(document page)" then g0
  else
    let source := pyStrip src
    let pageType :=
      match m.lookup (source, pg) with
      | some t => t
      | none => "PDF page"
    let base := "[Source: " ++ source ++ ", Page: " ++ pg ++ " (" ++ pageType ++ ")"
    let withSec :=
      match sec.map pyStrip with
      | some s => if s.isEmpty then base else base ++ ", Section: " ++ s
      | none => base
    withSec ++ "]"

/-- The optional parenthetical `(?:\s*\([^)]+\))?` after the page digits:
maximal whitespace, an opening parenthesis, at least one non-parenthesis
character up to the first closing parenthesis.  Returns the rest after the
closing parenthesis.  (Giving whitespace back cannot expose a parenthesis, so
the greedy skip is deterministic.) -/
def citParenPart (cs : List Char) : Option (List Char) :=
  let w := cs.dropWhile isPySpace
  match w with
  | '(' :: r =>
    let inner := r.takeWhile (fun c => c ≠ ')')
    if inner.isEmpty then none
    else
      match r.drop inner.length with
      | ')' :: rest => some rest
      | _ => none
  | _ => none

/-- The optional section `(?:\s*,\s*Section:\s*([^\]]+))?` followed by the
closing `\]`: returns the captured group and the rest after the bracket.
When everything between `Section:` and `]` is whitespace, the greedy `\s*`
backtracks by exactly one character so that `[^\]]+` can match it. -/
def citSectionPart (cs : List Char) : Option (List Char × List Char) :=
  let w1 := cs.dropWhile isPySpace
  match w1 with
  | ',' :: r1 =>
    let r2 := r1.dropWhile isPySpace
    match matchLit "Section:".data r2 with
    | some r3 =>
      let u := r3.takeWhile isPySpace
      let v := r3.drop u.length
      let g := v.takeWhile (fun c => c ≠ ']')
      if g.isEmpty then
        match v, u with
        | ']' :: rest, _ :: _ => some ([u.getLastD ' '], rest)
        | _, _ => none
      else
        match v.drop g.length with
        | ']' :: rest => some (g, rest)
        | _ => none
    | none => none
  | _ => none

/-- After the page digits: the two optional groups and the closing bracket,
with the regex backtracking order (parenthetical kept if possible, then the
section group, then the bare bracket, retrying without the parenthetical when
nothing closes after it). -/
def citAfterDigits (cs : List Char) : Option (Option (List Char) × List Char) :=
  let noParen : Option (Option (List Char) × List Char) :=
    match citSectionPart cs with
    | some (g, rest) => some (some g, rest)
    | none =>
      match cs with
      | ']' :: rest => some (none, rest)
      | _ => none
  match citParenPart cs with
  | some r1 =>
    (match citSectionPart r1 with
     | some (g, rest) => some (some g, rest)
     | none =>
       match r1 with
       | ']' :: rest => some (none, rest)
       | _ => noParen)
  | none => noParen

/-- The citation pattern
`\[Source:\s*([^,]+),\s*Page:?\s*(\d+)(?:\s*\([^)]+\))?(?:\s*,\s*Section:\s*([^\]]+))?\]`
tried at one start position (case-sensitive, as in the source).  On success
returns the whole match, group 1 (source), group 2 (page digits), group 3
(section, when present) and the rest of the input after the match.  When
everything between `Source:` and the comma is whitespace, the greedy `\s*`
backtracks by one character so that `[^,]+` can match it. -/
def citMatchAt (cs : List Char) :
    Option (String × String × String × Option String × List Char) :=
  match cs with
  | '[' :: t0 =>
    (match matchLit "Source:".data t0 with
     | some t1 =>
       let u := t1.takeWhile isPySpace
       let v := t1.drop u.length
       let g1 := v.takeWhile (fun c => c ≠ ',')
       let srcComma : Option (List Char × List Char) :=
         if g1.isEmpty then
           match v, u with
           | ',' :: r, _ :: _ => some ([u.getLastD ' '], r)
           | _, _ => none
         else
           match v.drop g1.length with
           | ',' :: r => some (g1, r)
           | _ => none
       match srcComma with
       | some (src, afterComma) =>
         let w2 := afterComma.dropWhile isPySpace
         (match matchLit "Page".data w2 with
          | some q1 =>
            let q2 := match q1 with
              | ':' :: qr => qr
              | _ => q1
            let q3 := q2.dropWhile isPySpace
            let ds := q3.takeWhile Char.isDigit
            if ds.isEmpty then none
            else
              match citAfterDigits (q3.drop ds.length) with
              | some (sec, rest) =>
                let g0 := String.mk (cs.take (cs.length - rest.length))
                some (g0, String.mk src, String.mk ds, sec.map String.mk, rest)
              | none => none
          | none => none)
       | none => none
     | none => none)
  | _ => none

/-- The re.sub scan: copy characters until a citation matches, emit its
replacement, and continue after the match (matches do not overlap).  The
fuel argument starts at the input length; a successful match always consumes
at least the opening bracket, so the guard and the fuel bound never bind. -/
def subCitationsGo (m : List ((String × String) × String)) :
    Nat → List Char → List Char
  | _, [] => []
  | 0, cs => cs
  | fuel + 1, c :: t =>
    match citMatchAt (c :: t) with
    | some (g0, src, pg, sec, rest) =>
      if rest.length ≤ t.length then
        (replace_citation m g0 src pg sec).data ++ subCitationsGo m fuel rest
      else c :: subCitationsGo m fuel t
    | none => c :: subCitationsGo m fuel t

/-- chat._fix_citations_in_answer: rewrite every citation-shaped substring of
the answer through replace_citation against the page-type map of the
retrieved documents. -/
def fix_citations_in_answer (retrieved_docs : List RDoc) (answer : String) :
    String :=
  String.mk
    (subCitationsGo (buildPageTypeMap retrieved_docs) answer.data.length
      answer.data)

/-- A citation as returned by the chat endpoint (api/chat.py Citation model). -/
structure Citation where
  source : String
  page : Option String
  section_label : Option String
  text : String
deriving DecidableEq, Repr

/-- The deduplication key of the citation loop:
`(source, page_document or page_pdf, section)`. -/
def citationKey (d : RDoc) : String × Option Int × Option String :=
  (d.source.getD "Unknown", pyOrInt d.page_document d.page_pdf, d.section_label)

/-- The displayed page of a citation: the truthy document page with its label,
else the truthy PDF page with its label, else nothing. -/
def citationPage (d : RDoc) : Option String :=
  match d.page_document with
  | some n =>
    if n ≠ 0 then some (toString n ++ " (document page)")
    else
      match d.page_pdf with
      | some p => if p ≠ 0 then some (toString p ++ " (PDF page)") else none
      | none => none
  | none =>
    match d.page_pdf with
    | some p => if p ≠ 0 then some (toString p ++ " (PDF page)") else none
    | none => none

/-- The excerpt attached to a citation: the chunk text truncated at 200
characters with an ellipsis marker when truncated. -/
def citationText (d : RDoc) : String :=
  if d.page_content.length > 200 then
    String.mk (d.page_content.data.take 200) ++ "..."
  else d.page_content

/-- The citation-extraction loop of the chat endpoint, with the `seen_sources`
set threaded through; each emitted citation is paired with its deduplication
key. -/
def deriveCitationsAux (seen : List (String × Option Int × Option String)) :
    List RDoc → List ((String × Option Int × Option String) × Citation)
  | [] => []
  | d :: ds =>
    let key := citationKey d
    if key ∈ seen then deriveCitationsAux seen ds
    else
      (key,
        { source := d.source.getD "Unknown"
          page := citationPage d
          section_label := d.section_label
          text := citationText d }) :: deriveCitationsAux (key :: seen) ds

/-- The deduplicated citation list the chat endpoint returns (spec name:
derive_citations). -/
def derive_citations (retrieved_docs : List RDoc) : List Citation :=
  (deriveCitationsAux [] retrieved_docs).map Prod.snd

/-!
core/llm.get_llm and the chat endpoint control flow.
-/

/-- A raised Python exception, split the way the chat endpoint's handlers
split them: ValueError (configuration-class) versus everything else. -/
inductive PyErr where
  | valueError (msg : String)
  | genericError (msg : String)
deriving DecidableEq, Repr

/-- The langchain ChatOpenAI client value built by get_llm. -/
structure LLMClient where
  model : String
  temperature : ℚ
  api_key : String
deriving DecidableEq, Repr

/-- Python `a or b` on an optional string against a string default: a falsy
left operand (None or empty) yields the right operand. -/
def pyOrStr (a : Option String) (b : String) : String :=
  match a with
  | some s => if s.data.isEmpty then b else s
  | none => b

/-- Python str.lower (ASCII). -/
def pyLower (s : String) : String :=
  String.mk (s.data.map Char.toLower)

/-- core/llm.get_llm: for the "openai" provider (after lowercasing), a missing
or empty OPENAI_API_KEY raises ValueError; otherwise a client is built with
the requested or configured model.  Any other provider raises ValueError.
The environment is the `env` parameter. -/
def get_llm (env : String → Option String) (provider : String)
    (model_name : Option String) (temperature : ℚ) : Except PyErr LLMClient :=
  let p := pyLower provider
  if p = "openai" then
    match env "OPENAI_API_KEY" with
    | none => Except.error (PyErr.valueError "OPENAI_API_KEY environment variable not set")
    | some k =>
      if k.data.isEmpty then
        Except.error (PyErr.valueError "OPENAI_API_KEY environment variable not set")
      else
        Except.ok
          { model := pyOrStr model_name ((env "OPENAI_CHAT_MODEL").getD "gpt-4o-mini")
            temperature := temperature
            api_key := k }
  else Except.error (PyErr.valueError ("Unsupported provider: " ++ provider))

/-- One labelled context block of the chat prompt
(`[Document i - Source: ..., Page: ... ] ...`). -/
def contextPart (i : Nat) (d : RDoc) : String :=
  let source := d.source.getD "Unknown"
  let page :=
    match d.page_document with
    | some n =>
      if n ≠ 0 then toString n ++ " (document page)"
      else
        match d.page_pdf with
        | some p => if p ≠ 0 then toString p ++ " (PDF page)" else "?"
        | none => "?"
    | none =>
      match d.page_pdf with
      | some p => if p ≠ 0 then toString p ++ " (PDF page)" else "?"
      | none => "?"
  let sec := (d.section_label).getD ""
  "[Document " ++ toString i ++ " - Source: " ++ source ++ ", Page: " ++ page ++
    (if sec.isEmpty then "" else ", Section: " ++ sec) ++ "]\n" ++ d.page_content

/-- The context string handed to the generation call: all blocks joined with
a separator. -/
def buildContext (docs : List RDoc) : String :=
  String.intercalate "\n\n---\n\n" (docs.enum.map (fun p => contextPart (p.1 + 1) p.2))

/-- The answer and citation list of a successful chat response. -/
structure ChatResponse where
  answer : String
  citations : List Citation
deriving DecidableEq, Repr

/-- An HTTPException raised by the endpoint handlers. -/
structure HTTPErr where
  status : Nat
  detail : String
deriving DecidableEq, Repr

/-- The fixed, non-generated fallback answer of the chat endpoint. -/
def noInfoAnswer : String :=
  "I couldn\x27t find relevant information in the building codes to answer your question. Please try rephrasing or asking about a different topic."

/-- The try-block of the chat endpoint after retrieval: the empty-retrieval
short circuit, then LLM acquisition, generation (abstracted as `invoke` on
the query and the built context), citation repair and citation derivation.
A raised exception propagates as an error value. -/
def chatBody (retrieved_docs : List RDoc) (env : String → Option String)
    (invoke : LLMClient → String → String → Except PyErr String)
    (query : String) : Except PyErr ChatResponse :=
  if retrieved_docs.isEmpty then
    Except.ok { answer := noInfoAnswer, citations := [] }
  else
    match get_llm env "openai" none 0 with
    | Except.error e => Except.error e
    | Except.ok llm =>
      match invoke llm query (buildContext retrieved_docs) with
      | Except.error e => Except.error e
      | Except.ok answer =>
        Except.ok
          { answer := fix_citations_in_answer retrieved_docs answer
            citations := derive_citations retrieved_docs }

/-- The except-handlers of the chat endpoint: ValueError becomes a 400
configuration error, anything else a 500 generic error. -/
def chatHandle (r : Except PyErr ChatResponse) : Except HTTPErr ChatResponse :=
  match r with
  | Except.ok v => Except.ok v
  | Except.error (PyErr.valueError m) =>
    Except.error { status := 400, detail := "Configuration error: " ++ m }
  | Except.error (PyErr.genericError m) =>
    Except.error { status := 500, detail := "Error processing chat request: " ++ m }

/-- api/chat.chat: the endpoint, parameterised over the retrieval result, the
environment and the generation capability. -/
def chat (retrieved_docs : List RDoc) (env : String → Option String)
    (invoke : LLMClient → String → String → Except PyErr String)
    (query : String) : Except HTTPErr ChatResponse :=
  chatHandle (chatBody retrieved_docs env invoke query)

/-!
vector_store.VectorStore.get_retriever.
-/

/-- The retriever value returned by get_retriever: a BM25 retriever over the
stored documents, an ensemble of BM25 and dense retrieval with the given
weights, or the dense retriever of the vector store. -/
inductive Retriever where
  | bm25 (documents : List RDoc) (k : Nat)
  | ensemble (documents : List RDoc) (k : Nat) (bm25_weight dense_weight : ℚ)
  | dense (k : Nat)
deriving DecidableEq, Repr

/-- vector_store.get_retriever: hybrid when requested and documents exist,
else BM25-only when requested and documents exist, else the dense retriever.
`self.documents` is the `documents` parameter; its Python truthiness is
non-emptiness. -/
def get_retriever (documents : List RDoc) (k : Nat)
    (use_hybrid : Bool) (use_bm25_only : Bool)
    (bm25_weight dense_weight : ℚ) : Retriever :=
  if use_hybrid && !documents.isEmpty then
    Retriever.ensemble documents k bm25_weight dense_weight
  else if use_bm25_only && !documents.isEmpty then
    Retriever.bm25 documents k
  else
    Retriever.dense k

/-!
models/domain.py and services/compliance_checker.py.
-/

/-- models/domain.Room.  area_m2 is a Python float holding exact decimal
values in every scenario considered, modelled as Rat. -/
structure Room where
  id : String
  name : String
  type : String
  level : Int
  area_m2 : ℚ
deriving DecidableEq, Repr

/-- models/domain.Rule.  rule_type ranges over "area_min", "width_min",
"text"; element_type over "room", "door". -/
structure Rule where
  id : String
  name : String
  rule_type : String
  element_type : String
  min_value : Option ℚ
  rule_text : Option String
  code_ref : Option String
deriving DecidableEq, Repr

/-- models/domain.Issue. -/
structure Issue where
  element_id : String
  element_type : String
  rule_id : String
  message : String
  code_ref : Option String
  severity : String
deriving DecidableEq, Repr

/-- Python float formatting with `:.2f` for the exact decimal values used
here: two digits after the point, rounding half away handled by `round`
(no ties arise for the inputs considered). -/
def formatQ2 (q : ℚ) : String :=
  let c : Int := round (q * 100)
  let n := c.natAbs
  (if c < 0 then "-" else "") ++ toString (n / 100) ++ "." ++
    (if n % 100 < 10 then "0" ++ toString (n % 100) else toString (n % 100))

/-- The violation Issue built by check_room_compliance. -/
def roomIssue (room : Room) (rule : Rule) (m : ℚ) : Issue :=
  { element_id := room.id
    element_type := "room"
    rule_id := rule.id
    message :=
      "Room \x27" ++ room.name ++ "\x27 (" ++ room.id ++ ") has area " ++
        formatQ2 room.area_m2 ++ " m², but minimum required is " ++
        formatQ2 m ++ " m² (" ++ rule.name ++ ")"
    code_ref := rule.code_ref
    severity := "error" }

/-- compliance_checker.check_room_compliance: filter the rules to room rules,
and for each area_min rule with a set min_value emit an error Issue when the
room area is below the minimum. -/
def check_room_compliance (room : Room) (rules : List Rule) : List Issue :=
  let room_rules := rules.filter (fun r => r.element_type = "room")
  room_rules.filterMap
    (fun rule =>
      if rule.rule_type = "area_min" then
        match rule.min_value with
        | some m => if room.area_m2 < m then some (roomIssue room rule m) else none
        | none => none
      else none)

/-!
Theorems.
-/

/-- A first-some result comes from some element of the list. -/
theorem firstSome_eq_some {α β : Type} (f : α → Option β) :
    ∀ (l : List α) (b : β), firstSome f l = some b → ∃ a ∈ l, f a = some b := by
  intro l
  induction l with
  | nil => intro b h; simp [firstSome] at h
  | cons a t ih =>
    intro b h
    simp only [firstSome] at h
    cases hfa : f a with
    | some b2 =>
      rw [hfa] at h
      exact ⟨a, List.mem_cons_self a t, hfa.trans h⟩
    | none =>
      rw [hfa] at h
      obtain ⟨a2, ha2, hfa2⟩ := ih b h
      exact ⟨a2, List.mem_cons_of_mem a ha2, hfa2⟩

/-- Claim C3: when retrieval returns zero chunks, the chat endpoint returns
the fixed fallback answer with an empty citation list, for every environment
and every generation capability - in particular the result does not depend on
the generation capability, which is therefore never invoked. -/
theorem c3_empty_retrieval_fallback :
    ∀ (env : String → Option String)
      (invoke : LLMClient → String → String → Except PyErr String)
      (query : String),
      chat [] env invoke query =
        Except.ok { answer := noInfoAnswer, citations := [] } := by
  intro env invoke query
  rfl

/-- Claim C10: against an index to which no documents were ever added,
get_retriever returns the dense retriever whatever the mode flags and
weights are - both use_hybrid and the default use_bm25_only are silently
ignored. -/
theorem c10_empty_index_dense_fallback :
    ∀ (k : Nat) (use_hybrid use_bm25_only : Bool) (bm25_weight dense_weight : ℚ),
      get_retriever [] k use_hybrid use_bm25_only bm25_weight dense_weight =
        Retriever.dense k := by
  intro k uh ub w1 w2
  cases uh <;> cases ub <;> rfl

/-- Claim C8: a room of area 8.0 checked against an area_min rule with
min_value 9.5 yields exactly one Issue, with severity "error"; a room of
area 10.0 against the same rule yields no issues - whatever the remaining
room and rule fields are. -/
theorem c8_room_area_min_scenario :
    ∀ (roomId roomName roomType : String) (level : Int)
      (ruleId ruleName : String) (ruleText codeRef : Option String),
      ((check_room_compliance
          { id := roomId, name := roomName, type := roomType, level := level,
            area_m2 := 8 }
          [{ id := ruleId, name := ruleName, rule_type := "area_min",
             element_type := "room", min_value := some (19/2),
             rule_text := ruleText, code_ref := codeRef }]).map Issue.severity
        = ["error"]) ∧
      check_room_compliance
          { id := roomId, name := roomName, type := roomType, level := level,
            area_m2 := 10 }
          [{ id := ruleId, name := ruleName, rule_type := "area_min",
             element_type := "room", min_value := some (19/2),
             rule_text := ruleText, code_ref := codeRef }] = [] := by
  intro roomId roomName roomType level ruleId ruleName ruleText codeRef
  constructor
  · simp only [check_room_compliance, List.filter, List.filterMap, roomIssue]
    norm_num
  · simp only [check_room_compliance, List.filter, List.filterMap, roomIssue]
    norm_num

/-- Claim C7: extract_section_number tries the four regex families in the
fixed order Section/Sec., Chapter, Art./Article, section symbol, and returns
the captured label of the first family that matches, unmodified; concrete
scenarios exercise the priority order, including the specified
"Section 5.2.3" input. -/
theorem c7_section_family_priority :
    (∀ (t : String) (s : String),
        secFamilySection t = some s → extract_section_number t = some s) ∧
    (∀ (t : String) (s : String),
        secFamilySection t = none → secFamilyChapter t = some s →
        extract_section_number t = some s) ∧
    (∀ (t : String) (s : String),
        secFamilySection t = none → secFamilyChapter t = none →
        secFamilyArticle t = some s → extract_section_number t = some s) ∧
    (∀ (t : String),
        secFamilySection t = none → secFamilyChapter t = none →
        secFamilyArticle t = none →
        extract_section_number t = secFamilySymbol t) ∧
    extract_section_number "Section 5.2.3 requires adequate ventilation." = some "5.2.3" ∧
    extract_section_number "See Chapter 2 and Section 5.2.3 here." = some "5.2.3" ∧
    extract_section_number "Under Chapter 3, § 4.5.6 applies." = some "3" ∧
    extract_section_number "Article 4.5 and § 1.2.3 apply." = some "4.5" ∧
    extract_section_number "Refer to § 7.8.9 only." = some "7.8.9" := by
  refine ⟨?_, ?_, ?_, ?_, by decide, by decide, by decide, by decide, by decide⟩
  · intro t s h1
    simp [extract_section_number, h1]
  · intro t s h1 h2
    simp [extract_section_number, h1, h2]
  · intro t s h1 h2 h3
    simp [extract_section_number, h1, h2, h3]
  · intro t h1 h2 h3
    simp [extract_section_number, h1, h2, h3]

/-- Witness for C7: the priority conjuncts applied at concrete inputs. -/
theorem c7_section_family_priority_witness :
    extract_section_number "Plain Sec. 10.2 here." = some "10.2" ∧
    extract_section_number "Only Chapter 7 here." = some "7" :=
  ⟨c7_section_family_priority.1 "Plain Sec. 10.2 here." "10.2" (by decide),
   c7_section_family_priority.2.1 "Only Chapter 7 here." "7" (by decide) (by decide)⟩

/-- A successful lookup in the map after one page was processed comes either
from the earlier map or from that page, with the inserted value validated by
extract_page_number_from_text and the [1, 5000] guard. -/
theorem pageMapInsert_lookup (d : PageDoc) (m : List (Int × Int)) (idx p : Int) :
    (pageMapInsert d m).lookup idx = some p →
    m.lookup idx = some p ∨
      (d.page = some idx ∧
        extract_page_number_from_text d.page_content idx = some p ∧
        1 ≤ p ∧ p ≤ 5000) := by
  obtain ⟨content, pg⟩ := d
  cases pg with
  | none => intro h; exact Or.inl h
  | some i =>
    intro h
    simp only [pageMapInsert] at h
    cases he : extract_page_number_from_text content i with
    | none =>
      rw [he] at h
      exact Or.inl h
    | some q =>
      rw [he] at h
      have h := show
          List.lookup idx
            (if q ≠ 0 then if 1 ≤ q ∧ q ≤ 5000 then (i, q) :: m else m else m) =
          some p from h
      by_cases hq : q ≠ 0
      · rw [if_pos hq] at h
        by_cases hb : 1 ≤ q ∧ q ≤ 5000
        · rw [if_pos hb] at h
          rw [List.lookup] at h
          cases hbe : idx == i with
          | true =>
            rw [hbe] at h
            have hidx : idx = i := by simpa using hbe
            have hp : q = p := by simpa using h
            subst hidx
            subst hp
            exact Or.inr ⟨rfl, he, hb⟩
          | false =>
            rw [hbe] at h
            exact Or.inl h
        · rw [if_neg hb] at h
          exact Or.inl h
      · rw [if_neg hq] at h
        exact Or.inl h

/-- A successful lookup in the page-number map comes from some processed page,
with the value produced by extract_page_number_from_text on that full page
and validated against [1, 5000]. -/
theorem buildPageNumberMapGo_lookup :
    ∀ (ds : List PageDoc) (m : List (Int × Int)) (idx p : Int),
      (buildPageNumberMapGo ds m).lookup idx = some p →
      m.lookup idx = some p ∨
        ∃ d ∈ ds, d.page = some idx ∧
          extract_page_number_from_text d.page_content idx = some p ∧
          1 ≤ p ∧ p ≤ 5000 := by
  intro ds
  induction ds with
  | nil => intro m idx p h; exact Or.inl h
  | cons d t ih =>
    intro m idx p h
    rcases ih (pageMapInsert d m) idx p h with h1 | ⟨d2, hd2, hrest⟩
    · rcases pageMapInsert_lookup d m idx p h1 with h2 | h3
      · exact Or.inl h2
      · exact Or.inr ⟨d, List.mem_cons_self d t, h3⟩
    · exact Or.inr ⟨d2, List.mem_cons_of_mem d hd2, hrest⟩

/-- A successful lookup in the full page-number map comes from some input
page. -/
theorem buildPageNumberMap_lookup (documents : List PageDoc) (idx p : Int) :
    (buildPageNumberMap documents).lookup idx = some p →
    ∃ d ∈ documents, d.page = some idx ∧
      extract_page_number_from_text d.page_content idx = some p ∧
      1 ≤ p ∧ p ≤ 5000 := by
  intro h
  rcases buildPageNumberMapGo_lookup documents [] idx p h with h1 | h2
  · simp [List.lookup] at h1
  · exact h2

/-- The metadata fields enrichChunk computes for a chunk whose loader page
metadata is the int idx. -/
theorem enrichChunk_of_page_some (m : List (Int × Int)) (c0 : PageDoc)
    (idx : Int) (h : c0.page = some idx) :
    (enrichChunk m c0).page_pdf = some (idx + 1) ∧
    (enrichChunk m c0).page_document = m.lookup idx ∧
    (enrichChunk m c0).page = pyOrInt (m.lookup idx) (some (idx + 1)) := by
  obtain ⟨content, pg⟩ := c0
  have hpg : pg = some idx := h
  subst hpg
  exact ⟨rfl, rfl, rfl⟩

/-- The metadata fields enrichChunk computes for a chunk whose loader page
metadata is not an int. -/
theorem enrichChunk_of_page_none (m : List (Int × Int)) (c0 : PageDoc)
    (h : c0.page = none) :
    (enrichChunk m c0).page_pdf = none ∧
    (enrichChunk m c0).page_document = none ∧
    (enrichChunk m c0).page = none := by
  obtain ⟨content, pg⟩ := c0
  have hpg : pg = none := h
  subst hpg
  exact ⟨rfl, rfl, rfl⟩

/-- Counterexample to claim C1 as stated: ingesting the single synthetic page
"125" (whose last line is exactly "125") with pdf_page_index 0 and chunking
it yields a chunk whose page_document is absent, not 125 - the bare number
fails the proximity validation |125 - 1| <= 100 - while page_pdf is 1. -/
theorem c1_counterexample :
    extract_page_number_from_text "125" 0 = none ∧
    (chunk_documents (fun ds => ds)
        [{ page_content := "125", page := some 0 }]).map
      (fun c => (c.page_document, c.page_pdf)) = [(none, some 1)] ∧
    ((none : Option Int) = some 125 → False) := by
  decide

/-- Claim C1 amended: ingesting a single synthetic page whose text is "125"
with pdf_page_index 0 and chunking it yields chunks with page_document
absent (the bare trailing number 125 is rejected by the plus-or-minus-100
proximity check against pdf_page_index + 1 = 1) and page_pdf = 1, for any
splitter that preserves the page metadata. -/
theorem c1_single_page_125 :
    ∀ (split : List PageDoc → List PageDoc),
      (∀ c ∈ split [{ page_content := "125", page := some 0 }], c.page = some 0) →
      ∀ c ∈ chunk_documents split [{ page_content := "125", page := some 0 }],
        c.page_document = none ∧ c.page_pdf = some 1 := by
  intro split hmeta c hc
  have hmap : buildPageNumberMap [{ page_content := "125", page := some 0 }] = [] := by
    decide
  unfold chunk_documents at hc
  rw [hmap] at hc
  obtain ⟨c0, hc0, rfl⟩ := List.mem_map.mp hc
  have h0 : c0.page = some 0 := hmeta c0 hc0
  have hf := enrichChunk_of_page_some [] c0 0 h0
  refine ⟨?_, ?_⟩
  · rw [hf.2.1]
    rfl
  · rw [hf.1]
    norm_num

/-- Witness for C1's amended theorem: the identity splitter (the behaviour of
the real splitter on a page shorter than the window). -/
theorem c1_single_page_125_witness :
    ({ page_content := "125", page_pdf := some 1, page_document := none,
        page := some 1, section_label := none } : Chunk).page_document = none ∧
    ({ page_content := "125", page_pdf := some 1, page_document := none,
        page := some 1, section_label := none } : Chunk).page_pdf = some 1 :=
  c1_single_page_125 (fun ds => ds) (by decide) _ (by decide)

/-- Counterexample to claim C2 as stated: a chunk from a page with
pdf_page_index 0 and no recoverable printed page number gets preferred page 1
(pdf_page_index + 1), not pdf_page_index + 1 + 1 = 2. -/
theorem c2_counterexample :
    (chunk_documents (fun ds => ds)
        [{ page_content := "hello world", page := some 0 }]).map Chunk.page
      = [some 1] ∧
    ((some 1 : Option Int) = some (0 + 1 + 1) → False) := by
  decide

/-- Claim C2 amended: for every chunk produced by the chunker, the preferred
(display) page is document_page_number when present, and otherwise page_pdf,
which is pdf_page_index + 1 (not pdf_page_index + 1 + 1). -/
theorem c2_preferred_page :
    ∀ (split : List PageDoc → List PageDoc) (documents : List PageDoc)
      (c : Chunk), c ∈ chunk_documents split documents →
      (∀ n : Int, c.page_document = some n → c.page = some n) ∧
      (c.page_document = none → c.page = c.page_pdf) := by
  intro split documents c hc
  unfold chunk_documents at hc
  obtain ⟨c0, hc0, rfl⟩ := List.mem_map.mp hc
  constructor
  · intro n hn
    cases h0 : c0.page with
    | none =>
      rw [(enrichChunk_of_page_none _ c0 h0).2.1] at hn
      simp at hn
    | some idx =>
      have hf := enrichChunk_of_page_some (buildPageNumberMap documents) c0 idx h0
      rw [hf.2.1] at hn
      obtain ⟨d, hd, hdp, hex, h1, h2⟩ := buildPageNumberMap_lookup documents idx n hn
      rw [hf.2.2, hn]
      have hne : n ≠ 0 := by omega
      simp [pyOrInt, hne]
  · intro hn
    cases h0 : c0.page with
    | none =>
      have hf := enrichChunk_of_page_none (buildPageNumberMap documents) c0 h0
      rw [hf.2.2, hf.1]
    | some idx =>
      have hf := enrichChunk_of_page_some (buildPageNumberMap documents) c0 idx h0
      rw [hf.2.1] at hn
      rw [hf.2.2, hf.1, hn]
      rfl

/-- Witness for C2's amended theorem: a page carrying an explicit "Page 7"
label, whose chunk displays the recovered document page 7. -/
theorem c2_preferred_page_witness :
    ({ page_content := "intro\nPage 7", page_pdf := some 1,
        page_document := some 7, page := some 7,
        section_label := none } : Chunk).page = some 7 :=
  (c2_preferred_page (fun ds => ds)
      [{ page_content := "intro\nPage 7", page := some 0 }] _ (by decide)).1 7
    (by decide)

/-- No key emitted by the citation loop was already in the seen set, and the
emitted keys are pairwise distinct. -/
theorem deriveCitationsAux_keys :
    ∀ (docs : List RDoc) (seen : List (String × Option Int × Option String)),
      (∀ k ∈ (deriveCitationsAux seen docs).map Prod.fst, k ∉ seen) ∧
      ((deriveCitationsAux seen docs).map Prod.fst).Nodup := by
  intro docs
  induction docs with
  | nil => intro seen; simp [deriveCitationsAux]
  | cons d ds ih =>
    intro seen
    have heq : deriveCitationsAux seen (d :: ds) =
        if citationKey d ∈ seen then deriveCitationsAux seen ds
        else
          (citationKey d,
            { source := d.source.getD "Unknown", page := citationPage d,
              section_label := d.section_label,
              text := citationText d }) :: deriveCitationsAux (citationKey d :: seen) ds :=
      rfl
    by_cases hk : citationKey d ∈ seen
    · rw [heq, if_pos hk]
      exact ih seen
    · rw [heq, if_neg hk]
      constructor
      · intro k hkmem
        simp only [List.map_cons, List.mem_cons] at hkmem
        rcases hkmem with rfl | hmem
        · exact hk
        · intro hin
          exact (ih (citationKey d :: seen)).1 k hmem (List.mem_cons_of_mem _ hin)
      · simp only [List.map_cons, List.nodup_cons]
        refine ⟨?_, (ih (citationKey d :: seen)).2⟩
        intro hmem
        exact (ih (citationKey d :: seen)).1 _ hmem (List.mem_cons_self _ _)

/-- Claim C5: the citation list derived from the retrieved chunks never
contains two citations sharing the same deduplication key
(source, document_page_number or pdf_page_index, section); each emitted
citation is paired with its key by deriveCitationsAux, and derive_citations
returns exactly those citations. -/
theorem c5_citation_dedup :
    ∀ (retrieved_docs : List RDoc),
      ((deriveCitationsAux [] retrieved_docs).map Prod.fst).Nodup ∧
      derive_citations retrieved_docs =
        (deriveCitationsAux [] retrieved_docs).map Prod.snd := by
  intro docs
  exact ⟨(deriveCitationsAux_keys docs []).2, rfl⟩

/-- get_llm raises the configuration ValueError when the OPENAI_API_KEY
environment variable is unset or empty. -/
theorem get_llm_missing_key (env : String → Option String)
    (model_name : Option String) (temperature : ℚ)
    (h : env "OPENAI_API_KEY" = none ∨ env "OPENAI_API_KEY" = some "") :
    get_llm env "openai" model_name temperature =
      Except.error (PyErr.valueError "OPENAI_API_KEY environment variable not set") := by
  have hstep : get_llm env "openai" model_name temperature =
      (match env "OPENAI_API_KEY" with
       | none =>
         Except.error (PyErr.valueError "OPENAI_API_KEY environment variable not set")
       | some k =>
         if k.data.isEmpty then
           Except.error (PyErr.valueError "OPENAI_API_KEY environment variable not set")
         else
           Except.ok
             { model := pyOrStr model_name ((env "OPENAI_CHAT_MODEL").getD "gpt-4o-mini")
               temperature := temperature
               api_key := k }) := rfl
  rcases h with h1 | h1
  · rw [hstep, h1]
  · rw [hstep, h1]
    rfl

/-- Claim C9: a missing generation credential surfaces as a configuration
error - get_llm raises ValueError, which the chat endpoint maps to a 400
"Configuration error" response - while a generic generation failure goes
through the separate catch-all path to a 500 response, so callers can
distinguish the two. -/
theorem c9_config_error_distinct :
    (∀ (env : String → Option String) (model_name : Option String)
        (temperature : ℚ),
        (env "OPENAI_API_KEY" = none ∨ env "OPENAI_API_KEY" = some "") →
        get_llm env "openai" model_name temperature =
          Except.error (PyErr.valueError "OPENAI_API_KEY environment variable not set")) ∧
    (∀ (docs : List RDoc) (env : String → Option String)
        (invoke : LLMClient → String → String → Except PyErr String)
        (query : String),
        docs ≠ [] →
        (env "OPENAI_API_KEY" = none ∨ env "OPENAI_API_KEY" = some "") →
        chat docs env invoke query =
          Except.error
            { status := 400
              detail := "Configuration error: OPENAI_API_KEY environment variable not set" }) ∧
    (∀ (docs : List RDoc) (env : String → Option String)
        (invoke : LLMClient → String → String → Except PyErr String)
        (query : String) (llm : LLMClient) (msg : String),
        docs ≠ [] →
        get_llm env "openai" none 0 = Except.ok llm →
        invoke llm query (buildContext docs) =
          Except.error (PyErr.genericError msg) →
        chat docs env invoke query =
          Except.error
            { status := 500
              detail := "Error processing chat request: " ++ msg }) := by
  refine ⟨get_llm_missing_key, ?_, ?_⟩
  · intro docs env invoke query hne h
    cases docs with
    | nil => exact absurd rfl hne
    | cons d ds =>
      have hb : chatBody (d :: ds) env invoke query =
          Except.error (PyErr.valueError "OPENAI_API_KEY environment variable not set") := by
        unfold chatBody
        rw [get_llm_missing_key env none 0 h]
        rfl
      show chatHandle (chatBody (d :: ds) env invoke query) = _
      rw [hb]
      rfl
  · intro docs env invoke query llm msg hne hok hinv
    cases docs with
    | nil => exact absurd rfl hne
    | cons d ds =>
      have hb : chatBody (d :: ds) env invoke query =
          Except.error (PyErr.genericError msg) := by
        unfold chatBody
        rw [hok]
        show (match invoke llm query (buildContext (d :: ds)) with
              | Except.error e => (Except.error e : Except PyErr ChatResponse)
              | Except.ok answer =>
                Except.ok
                  { answer := fix_citations_in_answer (d :: ds) answer
                    citations := derive_citations (d :: ds) }) =
            Except.error (PyErr.genericError msg)
        rw [hinv]
      show chatHandle (chatBody (d :: ds) env invoke query) = _
      rw [hb]
      rfl

/-- Witness for C9: a concrete environment without the key yields the 400
configuration response; a concrete generation failure with the key present
yields the 500 generic response. -/
theorem c9_config_error_distinct_witness :
    chat
        [{ page_content := "t", source := some "NBC", page_pdf := some 31,
           page_document := some 20, section_label := none }]
        (fun _ => none) (fun _ _ _ => Except.ok "a") "q" =
      Except.error
        { status := 400
          detail := "Configuration error: OPENAI_API_KEY environment variable not set" } ∧
    chat
        [{ page_content := "t", source := some "NBC", page_pdf := some 31,
           page_document := some 20, section_label := none }]
        (fun k => if k = "OPENAI_API_KEY" then some "sk" else none)
        (fun _ _ _ => Except.error (PyErr.genericError "boom")) "q" =
      Except.error
        { status := 500
          detail := "Error processing chat request: boom" } :=
  ⟨c9_config_error_distinct.2.1 _ _ _ _ (by simp) (Or.inl rfl),
   c9_config_error_distinct.2.2 _ _ _ _
     { model := "gpt-4o-mini", temperature := 0, api_key := "sk" } "boom"
     (by simp) rfl rfl⟩

/-- Counterexample to claim C4 as stated: for a retrieved chunk whose
page_pdf and page_document are both 5, the unannotated citation referencing
n = 5 - which is the chunk's page_pdf - is rewritten with "(document page)",
not "(PDF page)": the document-page mapping is written to the cross-reference
map after the PDF-page mapping and overwrites it. -/
theorem c4_counterexample :
    RDoc.page_pdf
        { page_content := "text", source := some "S", page_pdf := some 5,
          page_document := some 5, section_label := none } = some 5 ∧
    fix_citations_in_answer
        [{ page_content := "text", source := some "S", page_pdf := some 5,
           page_document := some 5, section_label := none }]
        "[Source: S, Page: 5]" = "[Source: S, Page: 5 (document page)]" ∧
    ("[Source: S, Page: 5 (document page)]" = "[Source: S, Page: 5 (PDF page)]" →
      False) := by
  decide

/-- Claim C4 amended: repair leaves already-annotated citations untouched,
and rewrites an unannotated citation with the page type recorded in the
cross-reference map, where each chunk contributes its page_pdf under
"PDF page" and then its page_document under "document page" and later
contributions overwrite earlier ones; in particular, for a single retrieved
chunk whose two page numbers are known and distinct, referencing either page
number reproduces the matching annotation, end to end through
fix_citations_in_answer. -/
theorem c4_citation_repair :
    (∀ (m : List ((String × String) × String)) (g0 src pg : String)
        (sec : Option String),
        (strContainsSub g0 "(PDF page)" = true ∨
          strContainsSub g0 "(document page)" = true) →
        replace_citation m g0 src pg sec = g0) ∧
    (∀ (pc s : String) (sect : Option String) (p d : Int),
        p ≠ 0 → d ≠ 0 → toString p ≠ toString d →
        (buildPageTypeMap
            [{ page_content := pc, source := some s, page_pdf := some p,
               page_document := some d, section_label := sect }]).lookup
            (s, toString p) = some "PDF page" ∧
        (buildPageTypeMap
            [{ page_content := pc, source := some s, page_pdf := some p,
               page_document := some d, section_label := sect }]).lookup
            (s, toString d) = some "document page") ∧
    (fix_citations_in_answer
        [{ page_content := "t", source := some "NBC", page_pdf := some 31,
           page_document := some 20, section_label := none }]
        "[Source: NBC, Page: 31]" = "[Source: NBC, Page: 31 (PDF page)]" ∧
      fix_citations_in_answer
        [{ page_content := "t", source := some "NBC", page_pdf := some 31,
           page_document := some 20, section_label := none }]
        "[Source: NBC, Page: 20]" = "[Source: NBC, Page: 20 (document page)]" ∧
      fix_citations_in_answer
        [{ page_content := "t", source := some "NBC", page_pdf := some 31,
           page_document := some 20, section_label := none }]
        "[Source: NBC, Page: 31 (document page)]"
        = "[Source: NBC, Page: 31 (document page)]") := by
  refine ⟨?_, ?_, by decide, by decide, by decide⟩
  · intro m g0 src pg sec h
    rcases h with h1 | h1
    · simp only [replace_citation, h1, Bool.true_or, if_true]
    · simp only [replace_citation, h1, Bool.or_true, if_true]
  · intro pc s sect p d hp hd hne
    have hmap : buildPageTypeMap
        [{ page_content := pc, source := some s, page_pdf := some p,
           page_document := some d, section_label := sect }] =
        ((s, toString d), "document page") :: ((s, toString p), "PDF page") :: [] := by
      simp only [buildPageTypeMap, List.foldl_cons, List.foldl_nil, Option.getD]
      rw [if_pos hp, if_pos hd]
    have hbeq1 : (((s, toString p) : String × String) == (s, toString d)) = false :=
      beq_eq_false_iff_ne.mpr (fun hc => hne (congrArg Prod.snd hc))
    have hbeq2 : (((s, toString p) : String × String) == (s, toString p)) = true :=
      beq_self_eq_true _
    have hbeq3 : (((s, toString d) : String × String) == (s, toString d)) = true :=
      beq_self_eq_true _
    rw [hmap]
    constructor
    · rw [List.lookup, hbeq1, List.lookup, hbeq2]
    · rw [List.lookup, hbeq3]

/-- Witness for C4's amended theorem: an annotated citation left untouched by
replace_citation, and the two mappings of a concrete chunk with distinct page
numbers. -/
theorem c4_citation_repair_witness :
    replace_citation [] "[Source: A, Page: 1 (PDF page)]" "A" "1" none
      = "[Source: A, Page: 1 (PDF page)]" ∧
    (buildPageTypeMap
        [{ page_content := "t", source := some "S", page_pdf := some 2,
           page_document := some 3, section_label := none }]).lookup ("S", "2")
      = some "PDF page" ∧
    (buildPageTypeMap
        [{ page_content := "t", source := some "S", page_pdf := some 2,
           page_document := some 3, section_label := none }]).lookup ("S", "3")
      = some "document page" :=
  ⟨c4_citation_repair.1 [] "[Source: A, Page: 1 (PDF page)]" "A" "1" none
      (Or.inl (by decide)),
   (c4_citation_repair.2.1 "t" "S" none 2 3 (by decide) (by decide) (by decide)).1,
   (c4_citation_repair.2.1 "t" "S" none 2 3 (by decide) (by decide) (by decide)).2⟩

/-- A value accepted by the pattern-1 findall loop lies in [1, 2000]. -/
theorem p1Scan_bounds : ∀ (cs : List Char) (n : Int),
    p1Scan cs = some n → 1 ≤ n ∧ n ≤ 2000 := by
  intro cs
  induction cs with
  | nil => intro n h; simp [p1Scan] at h
  | cons c t ih =>
    intro n h
    rw [p1Scan] at h
    cases hm : p1MatchAt (c :: t) with
    | none =>
      rw [hm] at h
      exact ih n h
    | some ds =>
      rw [hm] at h
      have h2 : (if (1 ≤ digitsToNat ds && digitsToNat ds ≤ 2000) = true
          then some (Int.ofNat (digitsToNat ds)) else p1Scan t) = some n := h
      by_cases hb : (1 ≤ digitsToNat ds && digitsToNat ds ≤ 2000) = true
      · rw [if_pos hb] at h2
        simp only [Bool.and_eq_true, decide_eq_true_eq] at hb
        obtain rfl : Int.ofNat (digitsToNat ds) = n := Option.some.inj h2
        simp only [Int.ofNat_eq_coe]
        omega
      · rw [if_neg hb] at h2
        exact ih n h2

/-- A value accepted by the pattern-2 line check lies in [1, 2000] and
within 100 of the 1-based PDF page number. -/
theorem p2Line_bounds (pdfPageNum : Int) (l : String) (n : Int)
    (h : p2Line pdfPageNum l = some n) :
    1 ≤ n ∧ n ≤ 2000 ∧ (n - pdfPageNum).natAbs ≤ 100 := by
  unfold p2Line at h
  have h2 : (if (pyIsDigit (pyStrip l) && decide ((pyStrip l).length ≤ 4)) = true then
      (if (decide (1 ≤ digitsToNat (pyStrip l).data) &&
           decide (digitsToNat (pyStrip l).data ≤ 2000) &&
           decide ((Int.ofNat (digitsToNat (pyStrip l).data) - pdfPageNum).natAbs ≤ 100)) = true then
        some (Int.ofNat (digitsToNat (pyStrip l).data))
      else none)
    else none) = some n := h
  by_cases hc1 : (pyIsDigit (pyStrip l) && decide ((pyStrip l).length ≤ 4)) = true
  · rw [if_pos hc1] at h2
    by_cases hc2 : (decide (1 ≤ digitsToNat (pyStrip l).data) &&
        decide (digitsToNat (pyStrip l).data ≤ 2000) &&
        decide ((Int.ofNat (digitsToNat (pyStrip l).data) - pdfPageNum).natAbs ≤ 100)) = true
    · rw [if_pos hc2] at h2
      simp only [Bool.and_eq_true, decide_eq_true_eq] at hc2
      obtain rfl : Int.ofNat (digitsToNat (pyStrip l).data) = n := Option.some.inj h2
      simp only [Int.ofNat_eq_coe] at hc2 ⊢
      omega
    · rw [if_neg hc2] at h2
      simp at h2
  · rw [if_neg hc1] at h2
    simp at h2

/-- A value accepted by pattern 3 lies in [1, 2000] and within 100 of the
1-based PDF page number. -/
theorem p3LastLine_bounds (lines : List String) (pdfPageNum : Int) (n : Int)
    (h : p3LastLine lines pdfPageNum = some n) :
    1 ≤ n ∧ n ≤ 2000 ∧ (n - pdfPageNum).natAbs ≤ 100 := by
  unfold p3LastLine at h
  have h2 : (if (((pyStrip ((lines.getLast?).getD "")).data.reverse.takeWhile Char.isDigit).reverse).isEmpty = true then none
    else
      (if (decide (1 ≤ digitsToNat (((pyStrip ((lines.getLast?).getD "")).data.reverse.takeWhile Char.isDigit).reverse)) &&
           decide (digitsToNat (((pyStrip ((lines.getLast?).getD "")).data.reverse.takeWhile Char.isDigit).reverse) ≤ 2000) &&
           decide ((pyStrip ((lines.getLast?).getD "")).length < 30) &&
           decide ((((pyStrip ((lines.getLast?).getD "")).data.reverse.takeWhile Char.isDigit).reverse).length ≤ 4) &&
           decide ((Int.ofNat (digitsToNat (((pyStrip ((lines.getLast?).getD "")).data.reverse.takeWhile Char.isDigit).reverse)) - pdfPageNum).natAbs ≤ 100)) = true then
        some (Int.ofNat (digitsToNat (((pyStrip ((lines.getLast?).getD "")).data.reverse.takeWhile Char.isDigit).reverse)))
      else none)) = some n := h
  by_cases hc1 : ((((pyStrip ((lines.getLast?).getD "")).data.reverse.takeWhile Char.isDigit).reverse).isEmpty) = true
  · rw [if_pos hc1] at h2
    simp at h2
  · rw [if_neg hc1] at h2
    by_cases hc2 : (decide (1 ≤ digitsToNat (((pyStrip ((lines.getLast?).getD "")).data.reverse.takeWhile Char.isDigit).reverse)) &&
        decide (digitsToNat (((pyStrip ((lines.getLast?).getD "")).data.reverse.takeWhile Char.isDigit).reverse) ≤ 2000) &&
        decide ((pyStrip ((lines.getLast?).getD "")).length < 30) &&
        decide ((((pyStrip ((lines.getLast?).getD "")).data.reverse.takeWhile Char.isDigit).reverse).length ≤ 4) &&
        decide ((Int.ofNat (digitsToNat (((pyStrip ((lines.getLast?).getD "")).data.reverse.takeWhile Char.isDigit).reverse)) - pdfPageNum).natAbs ≤ 100)) = true
    · rw [if_pos hc2] at h2
      simp only [Bool.and_eq_true, decide_eq_true_eq] at hc2
      obtain rfl : Int.ofNat (digitsToNat (((pyStrip ((lines.getLast?).getD "")).data.reverse.takeWhile Char.isDigit).reverse)) = n := Option.some.inj h2
      simp only [Int.ofNat_eq_coe] at hc2 ⊢
      omega
    · rw [if_neg hc2] at h2
      simp at h2

/-- A value accepted by the pattern-2 loop lies in [1, 2000] and within 100
of the 1-based PDF page number. -/
theorem p2LastLines_bounds (lines : List String) (pdfPageNum : Int) (n : Int)
    (h : p2LastLines lines pdfPageNum = some n) :
    1 ≤ n ∧ n ≤ 2000 ∧ (n - pdfPageNum).natAbs ≤ 100 := by
  obtain ⟨l, _, hl⟩ := firstSome_eq_some (p2Line pdfPageNum)
    ((lines.drop (lines.length - 3)).reverse) n h
  exact p2Line_bounds pdfPageNum l n hl

set_option maxRecDepth 4000 in
/-- Every page number recovered by extract_page_number_from_text lies in
[1, 2000], and is either within 100 of the 1-based PDF page number or came
from the explicit Page/p. label search over the final 200 characters. -/
theorem extract_page_number_bounds (text : String) (idx n : Int)
    (h : extract_page_number_from_text text idx = some n) :
    1 ≤ n ∧ n ≤ 2000 ∧
      ((n - (idx + 1)).natAbs ≤ 100 ∨ p1Footer text = some n) := by
  unfold extract_page_number_from_text at h
  by_cases he : text.data.isEmpty = true
  · rw [if_pos he] at h
    simp at h
  · rw [if_neg he] at h
    have h2 : (match p1Footer text with
        | some m => some m
        | none =>
          match p2LastLines (pySplitNL text) (idx + 1) with
          | some m => some m
          | none => p3LastLine (pySplitNL text) (idx + 1)) = some n := h
    cases h1 : p1Footer text with
    | some m =>
      rw [h1] at h2
      obtain rfl : m = n := Option.some.inj h2
      obtain ⟨hb1, hb2⟩ := p1Scan_bounds (text.data.drop (text.data.length - 200)) m h1
      exact ⟨hb1, hb2, Or.inr rfl⟩
    | none =>
      rw [h1] at h2
      have h3 : (match p2LastLines (pySplitNL text) (idx + 1) with
          | some m => some m
          | none => p3LastLine (pySplitNL text) (idx + 1)) = some n := h2
      cases h4 : p2LastLines (pySplitNL text) (idx + 1) with
      | some m =>
        rw [h4] at h3
        obtain rfl : m = n := Option.some.inj h3
        obtain ⟨hb1, hb2, hb3⟩ := p2LastLines_bounds (pySplitNL text) (idx + 1) m h4
        exact ⟨hb1, hb2, Or.inl hb3⟩
      | none =>
        rw [h4] at h3
        obtain ⟨hb1, hb2, hb3⟩ := p3LastLine_bounds (pySplitNL text) (idx + 1) n h3
        exact ⟨hb1, hb2, Or.inl hb3⟩

set_option maxRecDepth 8000 in
/-- Claim C6: for every ingested chunk (pages carrying non-negative int page
indices, split by a metadata-preserving splitter), page_pdf is present with
page_pdf = pdf_page_index + 1 >= 1, and whenever page_document is present it
lies in [1, 2000] and either falls within 100 of page_pdf or was derived
from an explicit Page/p. label in the final 200 characters of the full page
with that index. -/
theorem c6_page_invariant :
    ∀ (split : List PageDoc → List PageDoc) (documents : List PageDoc),
      (∀ ch ∈ split documents, ∃ d ∈ documents, ch.page = d.page) →
      (∀ d ∈ documents, ∃ k : Int, d.page = some k ∧ 0 ≤ k) →
      ∀ c ∈ chunk_documents split documents,
        (∃ p : Int, c.page_pdf = some p ∧ 1 ≤ p) ∧
        (∀ n p : Int, c.page_document = some n → c.page_pdf = some p →
          1 ≤ n ∧ n ≤ 2000 ∧
          ((n - p).natAbs ≤ 100 ∨
            ∃ d ∈ documents, d.page = some (p - 1) ∧
              p1Footer d.page_content = some n)) := by
  intro split documents hsplit hdocs c hc
  unfold chunk_documents at hc
  obtain ⟨c0, hc0, rfl⟩ := List.mem_map.mp hc
  obtain ⟨d0, hd0, hpg⟩ := hsplit c0 hc0
  obtain ⟨k, hk, hk0⟩ := hdocs d0 hd0
  have h0 : c0.page = some k := hpg.trans hk
  have hf := enrichChunk_of_page_some (buildPageNumberMap documents) c0 k h0
  constructor
  · exact ⟨k + 1, hf.1, by omega⟩
  · intro n p hn hp
    rw [hf.2.1] at hn
    rw [hf.1] at hp
    obtain rfl : k + 1 = p := Option.some.inj hp
    obtain ⟨d, hd, hdp, hex, _, _⟩ := buildPageNumberMap_lookup documents k n hn
    obtain ⟨hb1, hb2, hb3⟩ := extract_page_number_bounds d.page_content k n hex
    refine ⟨hb1, hb2, ?_⟩
    rcases hb3 with hprox | hlabel
    · exact Or.inl (by simpa using hprox)
    · refine Or.inr ⟨d, hd, ?_, hlabel⟩
      rw [hdp]
      congr 1
      omega

set_option maxRecDepth 8000 in
/-- Witness for C6: a page labelled "Page 150" at PDF index 0; the label is
far outside the proximity window, so the explicit-label disjunct holds. -/
theorem c6_page_invariant_witness :
    1 ≤ (150 : Int) ∧ (150 : Int) ≤ 2000 ∧
      (((150 : Int) - 1).natAbs ≤ 100 ∨
        ∃ d ∈ [({ page_content := "main text\nPage 150", page := some 0 } : PageDoc)],
          d.page = some ((1 : Int) - 1) ∧ p1Footer d.page_content = some 150) :=
  (c6_page_invariant (fun ds => ds)
      [{ page_content := "main text\nPage 150", page := some 0 }]
      (fun ch hch => ⟨ch, hch, rfl⟩)
      (by
        intro d hd
        simp only [List.mem_singleton] at hd
        subst hd
        exact ⟨0, rfl, le_refl 0⟩)
      { page_content := "main text\nPage 150", page_pdf := some 1,
        page_document := some 150, page := some 150, section_label := none }
      (by decide)).2 150 1 (by decide) (by decide)
